import Mathlib

/-!
Verification of the drummer voice assistant core (`nlu.py`, `actions.py`).

The Python sources are shallowly embedded:
* Python mutation becomes explicit state passing (`Metronome`, `PageTurner`,
  `State` records; each operation returns the new record plus the list of
  strings passed to `speak`).
* The regular expressions of `nlu.py` are encoded as terms of a small `RE`
  type and run by a fuel-bounded backtracking matcher whose result list is in
  Python's leftmost, greedy priority order.
* Python floats (`60.0 / bpm` and friends) are modelled as exact rationals;
  the expression trees mirror the source.
* Thread, timer, text-to-speech and browser side effects are external
  collaborators: the tick thread's existence is the `alive` flag, the armed
  `threading.Timer` is the `scheduled_timer` option plus a `cancelled` event
  log of `Timer.cancel` calls, and `webbrowser.open` is not modelled.
-/

/-! ## A tiny regex engine for the patterns of `nlu.py`

Supported constructs: character classes, concatenation, alternation, greedy
star, the word-boundary assertion and numbered capture groups. This covers
every pattern in `nlu.py` (`+`, `?`, `{m,n}` are derived forms below).
-/

inductive RE where
  | eps : RE
  | cls : (Char → Bool) → RE
  | cat : RE → RE → RE
  | alt : RE → RE → RE
  | star : RE → RE
  | wb : RE
  | group : Nat → RE → RE

/-- Python `\w` (ASCII range; the utterances involved are ASCII). -/
def isWordChar (c : Char) : Bool := c.isAlphanum || c == '_'

/-- Python `\b`: the characters on the two sides of the position disagree on
wordness (start/end of input counts as non-word). -/
def atBoundary (prev : Option Char) (s : List Char) : Bool :=
  let l := match prev with
    | some c => isWordChar c
    | none => false
  let r := match s with
    | c :: _ => isWordChar c
    | [] => false
  l != r

/-- Run a pattern at the current position. `prev` is the character just before
the position (for `\b`). Returns every way the pattern can match a prefix of
`s`, as (new previous char, remaining suffix, captures) triples, in Python's
backtracking priority order (greedy, first alternative first). The fuel bounds
the depth of the backtracking search; values used below are ample for the
short patterns and utterances of this repository. -/
def runRE : Nat → RE → Option Char → List Char →
    List (Option Char × List Char × List (Nat × List Char))
  | 0, _, _, _ => []
  | _ + 1, RE.eps, prev, s => [(prev, s, [])]
  | _ + 1, RE.cls p, _, s =>
    match s with
    | [] => []
    | c :: rest => if p c then [(some c, rest, [])] else []
  | f + 1, RE.cat a b, prev, s =>
    (runRE f a prev s).flatMap (fun r =>
      (runRE f b r.1 r.2.1).map (fun q => (q.1, q.2.1, r.2.2 ++ q.2.2)))
  | f + 1, RE.alt a b, prev, s => runRE f a prev s ++ runRE f b prev s
  | f + 1, RE.star a, prev, s =>
    ((runRE f a prev s).flatMap (fun r =>
      if r.2.1.length < s.length then
        (runRE f (RE.star a) r.1 r.2.1).map
          (fun q => (q.1, q.2.1, r.2.2 ++ q.2.2))
      else []))
    ++ [(prev, s, [])]
  | _ + 1, RE.wb, prev, s => if atBoundary prev s then [(prev, s, [])] else []
  | f + 1, RE.group n a, prev, s =>
    (runRE f a prev s).map (fun r =>
      (r.1, r.2.1, r.2.2 ++ [(n, s.take (s.length - r.2.1.length))]))

/-- `re.search`: try each start position from the left; at the first position
where the pattern matches, return the highest-priority match's captures. -/
def searchAux (re : RE) (fuel : Nat) : Option Char → List Char →
    Option (List (Nat × List Char))
  | prev, s =>
    match runRE fuel re prev s with
    | r :: _ => some r.2.2
    | [] =>
      match s with
      | [] => none
      | c :: rest => searchAux re fuel (some c) rest

def reSearch (re : RE) (s : List Char) : Option (List (Nat × List Char)) :=
  searchAux re (500 + 16 * s.length) none s

/-- Truthiness of `re.search(...)`: did the pattern match anywhere? -/
def reTest (re : RE) (s : List Char) : Bool := (reSearch re s).isSome

/-- `re.search(...).group(k)` of the leftmost match, when the pattern matched
and group `k` participated. -/
def reGroup (re : RE) (k : Nat) (s : List Char) : Option (List Char) :=
  match reSearch re s with
  | some gs => (gs.find? (fun g => g.1 == k)).map (fun g => g.2)
  | none => none

/-! Derived pattern forms. -/

def reChr (c : Char) : RE := RE.cls (fun d => d == c)

def reStr (s : String) : RE := s.data.foldr (fun c r => RE.cat (reChr c) r) RE.eps

def reSeq (l : List RE) : RE := l.foldr RE.cat RE.eps

/-- `x+` (greedy). -/
def rePlus (a : RE) : RE := RE.cat a (RE.star a)

/-- `x?` (greedy: try the present branch first). -/
def reOpt (a : RE) : RE := RE.alt a RE.eps

/-- `\s+` -/
def wsp : RE := rePlus (RE.cls Char.isWhitespace)

/-- `\d` -/
def dig : RE := RE.cls Char.isDigit

/-- `\d{2}` -/
def dig2 : RE := RE.cat dig dig

/-- `\d{3}` -/
def dig3 : RE := RE.cat dig (RE.cat dig dig)

/-- `\d{1,3}` (greedy: longest first). -/
def digOneToThree : RE := RE.alt dig3 (RE.alt dig2 dig)

/-- `\d{2,3}` (greedy: longest first). -/
def digTwoToThree : RE := RE.alt dig3 dig2

/-- The ASCII apostrophe, written by code point. -/
def apos : Char := Char.ofNat 39

/-! ## The regular expressions of `nlu.py` -/

/-- `NUM_RE  = re.compile(r"\b(\d{1,3})\b", re.I)` -/
def NUM_RE : RE := reSeq [RE.wb, RE.group 1 digOneToThree, RE.wb]

/-- `PAGE_RE = re.compile(r"page\s+(\d+)", re.I)` -/
def PAGE_RE : RE := reSeq [reStr "page", wsp, RE.group 1 (rePlus dig)]

/-- `SUB_RE  = re.compile(r"(quarter|eighth|triplet|sixteenth)", re.I)` -/
def SUB_RE : RE :=
  RE.group 1 (RE.alt (reStr "quarter")
    (RE.alt (reStr "eighth") (RE.alt (reStr "triplet") (reStr "sixteenth"))))

/-- `r"\b(start|begin)\s+metronome\b"` -/
def startMetRE : RE :=
  reSeq [RE.wb, RE.group 1 (RE.alt (reStr "start") (reStr "begin")), wsp,
    reStr "metronome", RE.wb]

/-- `r"\b(stop|end)\s+metronome\b"` -/
def stopMetRE : RE :=
  reSeq [RE.wb, RE.group 1 (RE.alt (reStr "stop") (reStr "end")), wsp,
    reStr "metronome", RE.wb]

/-- `r"\b(tap\s+tempo)\b"` -/
def tapTempoRE : RE :=
  reSeq [RE.wb, RE.group 1 (reSeq [reStr "tap", wsp, reStr "tempo"]), RE.wb]

/-- `r"\bwhat'?s\s+(tempo|bpm)\b"` -/
def whatTempoRE : RE :=
  reSeq [RE.wb, reStr "what", reOpt (reChr apos), reChr 's', wsp,
    RE.group 1 (RE.alt (reStr "tempo") (reStr "bpm")), RE.wb]

/-- `r"\b(set\s+(tempo|bpm)\s+(to|at)\s+\d{2,3}|(tempo|bpm)\s+\d{2,3})\b"` -/
def setTempoRE : RE :=
  reSeq [RE.wb,
    RE.group 1 (RE.alt
      (reSeq [reStr "set", wsp, RE.group 2 (RE.alt (reStr "tempo") (reStr "bpm")),
        wsp, RE.group 3 (RE.alt (reStr "to") (reStr "at")), wsp, digTwoToThree])
      (reSeq [RE.group 4 (RE.alt (reStr "tempo") (reStr "bpm")), wsp,
        digTwoToThree])),
    RE.wb]

/-- `r"\b(increase|up)\s+(tempo|bpm)(?:\s+by)?\s+(\d{1,3})\b"` -/
def incTempoRE : RE :=
  reSeq [RE.wb, RE.group 1 (RE.alt (reStr "increase") (reStr "up")), wsp,
    RE.group 2 (RE.alt (reStr "tempo") (reStr "bpm")),
    reOpt (reSeq [wsp, reStr "by"]), wsp, RE.group 3 digOneToThree, RE.wb]

/-- `r"\b(decrease|down)\s+(tempo|bpm)(?:\s+by)?\s+(\d{1,3})\b"` -/
def decTempoRE : RE :=
  reSeq [RE.wb, RE.group 1 (RE.alt (reStr "decrease") (reStr "down")), wsp,
    RE.group 2 (RE.alt (reStr "tempo") (reStr "bpm")),
    reOpt (reSeq [wsp, reStr "by"]), wsp, RE.group 3 digOneToThree, RE.wb]

/-- `r"\b(next\s+page|turn\s+page)\b"` -/
def nextPageRE : RE :=
  reSeq [RE.wb,
    RE.group 1 (RE.alt (reSeq [reStr "next", wsp, reStr "page"])
      (reSeq [reStr "turn", wsp, reStr "page"])),
    RE.wb]

/-- `r"\b(previous\s+page|prev\s+page)\b"` -/
def prevPageRE : RE :=
  reSeq [RE.wb,
    RE.group 1 (RE.alt (reSeq [reStr "previous", wsp, reStr "page"])
      (reSeq [reStr "prev", wsp, reStr "page"])),
    RE.wb]

/-- `r"turn\s+page\s+in\s+(\d+)\s+bars?"` -/
def schedRE : RE :=
  reSeq [reStr "turn", wsp, reStr "page", wsp, reStr "in", wsp,
    RE.group 1 (rePlus dig), wsp, reStr "bar", reOpt (reChr 's')]

/-- `r"\bhelp\b"` -/
def helpRE : RE := reSeq [RE.wb, reStr "help", RE.wb]

/-- `r"\b(quit|exit)\b"` -/
def quitRE : RE :=
  reSeq [RE.wb, RE.group 1 (RE.alt (reStr "quit") (reStr "exit")), RE.wb]

example : reTest whatTempoRE "what is tempo".data = false := by decide
example : reTest whatTempoRE "whats tempo".data = true := by decide
example : reGroup NUM_RE 1 "tempo 00".data = some ['0', '0'] := by decide
example : reTest setTempoRE "tempo 00".data = true := by decide

/-! ## `nlu.py`: the rule-based classifier -/

/-- Python `str.strip()` (default whitespace). -/
def pyStrip (s : List Char) : List Char :=
  ((s.dropWhile Char.isWhitespace).reverse.dropWhile Char.isWhitespace).reverse

/-- Python `needle in hay` substring containment. -/
def strIn (needle : List Char) : List Char → Bool
  | [] => needle.isEmpty
  | c :: rest => needle.isPrefixOf (c :: rest) || strIn needle rest

/-- Python `int(...)` on a captured digit string. -/
def digitsToNat (ds : List Char) : Nat :=
  ds.foldl (fun a c => 10 * a + (c.toNat - 48)) 0

/-- The intent dictionary returned by `nlu_rules` and consumed by `do_action`:
a `name` plus the optional slot keys that appear in the source. A missing key
is `none`. -/
structure Intent where
  name : String
  bpm : Option Int
  delta : Option Int
  sub : Option String
  page : Option Int
  bars : Option Int
deriving DecidableEq

/-- An intent dictionary holding only a `name` key. -/
def Intent.just (name : String) : Intent :=
  { name := name, bpm := none, delta := none, sub := none, page := none,
    bars := none }

/-- `nlu_rules(utterance)` from `nlu.py`, branch for branch. A branch whose
regex matched but whose extraction produced nothing falls through to the next
branch exactly as the Python code does. -/
def nlu_rules (utterance : String) : Intent :=
  let u : List Char := (pyStrip utterance.data).map Char.toLower
  if reTest startMetRE u then Intent.just "start_met" else
  if reTest stopMetRE u then Intent.just "stop_met" else
  if reTest tapTempoRE u then Intent.just "tap_tempo" else
  if reTest whatTempoRE u then Intent.just "what_tempo" else
  match (if reTest setTempoRE u then
          (reGroup NUM_RE 1 u).map (fun ds =>
            { Intent.just "set_tempo" with bpm := some (digitsToNat ds : Int) })
        else none) with
  | some i => i
  | none =>
  match reGroup incTempoRE 3 u with
  | some ds => { Intent.just "inc_tempo" with delta := some (digitsToNat ds : Int) }
  | none =>
  match reGroup decTempoRE 3 u with
  | some ds => { Intent.just "dec_tempo" with delta := some (digitsToNat ds : Int) }
  | none =>
  match (match reGroup SUB_RE 1 u with
        | some w =>
          if strIn "subdiv".data u then
            some { Intent.just "set_subdivision" with sub := some (String.mk w) }
          else none
        | none => none) with
  | some i => i
  | none =>
  if reTest nextPageRE u then Intent.just "next_page" else
  if reTest prevPageRE u then Intent.just "prev_page" else
  match (match reGroup PAGE_RE 1 u with
        | some ds =>
          if strIn "go to page".data u then
            some { Intent.just "goto_page" with page := some (digitsToNat ds : Int) }
          else none
        | none => none) with
  | some i => i
  | none =>
  match reGroup schedRE 1 u with
  | some ds => { Intent.just "schedule_page_turn" with bars := some (digitsToNat ds : Int) }
  | none =>
  if reTest helpRE u then Intent.just "help" else
  if reTest quitRE u then Intent.just "quit" else
  Intent.just "unknown"

example : nlu_rules "tap tempo" = Intent.just "tap_tempo" := by decide
example : nlu_rules "what is tempo" = Intent.just "unknown" := by decide
example : nlu_rules "tempo 00" = { Intent.just "set_tempo" with bpm := some 0 } := by decide

/-! ## `actions.py`: metronome, page turner, dispatcher

Each operation returns the successor state paired with the list of strings
passed to `speak` (console/TTS output). `webbrowser.open` and the tick
thread's loop body are external side effects, not modelled; the thread's
existence (`Thread.is_alive`) is the `alive` flag and its `_running` event is
the `running` flag.
-/

/-- The mutable fields of the `Metronome` thread object. `_stop_all` and
`_beat` belong to the unmodelled tick loop. Floats are modelled as exact
rationals. -/
structure Metronome where
  bpm : Int
  interval : ℚ
  running : Bool
  alive : Bool
  subdivision : Nat
deriving DecidableEq

/-- `clamp(n, 20, 300)` as the spec writes it; the source computes
`max(20, min(300, n))`. -/
def clamp (n lo hi : Int) : Int := max lo (min hi n)

/-- `Metronome.__init__(bpm=100)`. -/
def Metronome.init (bpm : Int) : Metronome :=
  let b := max 20 (min 300 bpm)
  { bpm := b, interval := 60 / (b : ℚ), running := false, alive := false,
    subdivision := 1 }

/-- `Metronome.set_bpm`. -/
def Metronome.set_bpm (m : Metronome) (bpm : Int) : Metronome × List String :=
  let b := max 20 (min 300 bpm)
  ({ m with
      bpm := b,
      interval := 60 / (b : ℚ) / ((max 1 m.subdivision : Nat) : ℚ) },
   ["Tempo set to " ++ toString b ++ " BPM."])

/-- `Metronome.increase`. -/
def Metronome.increase (m : Metronome) (delta : Int) : Metronome × List String :=
  m.set_bpm (m.bpm + delta)

/-- `Metronome.decrease`. -/
def Metronome.decrease (m : Metronome) (delta : Int) : Metronome × List String :=
  m.set_bpm (m.bpm - delta)

/-- The `mapping` dict of `Metronome.set_subdivision`. -/
def subdivisionMapping (sub : String) : Option Nat :=
  if sub = "quarter" then some 1
  else if sub = "eighth" then some 2
  else if sub = "triplet" then some 3
  else if sub = "sixteenth" then some 4
  else none

/-- `Metronome.set_subdivision`: a name outside the mapping changes nothing
and says nothing. -/
def Metronome.set_subdivision (m : Metronome) (sub : String) :
    Metronome × List String :=
  match subdivisionMapping sub with
  | some k =>
    ({ m with subdivision := k, interval := 60 / (m.bpm : ℚ) / (k : ℚ) },
     ["Subdivision set to " ++ sub ++ "."])
  | none => (m, [])

/-- `Metronome.start_click`: start the thread unless it is already alive, then
set the running event. -/
def Metronome.start_click (m : Metronome) : Metronome × List String :=
  let m1 := if m.alive then m else { m with alive := true }
  ({ m1 with running := true }, ["Metronome started."])

/-- `Metronome.stop_click`: clear the running event. -/
def Metronome.stop_click (m : Metronome) : Metronome × List String :=
  ({ m with running := false }, ["Metronome stopped."])

/-- `PageTurner` (the `__post_init__` existence check on the path and the
browser calls are external I/O). -/
structure PageTurner where
  pdf_path : String
  current_page : Int
  total_pages : Option Int
deriving DecidableEq

/-- `PageTurner.next_page`. -/
def PageTurner.next_page (p : PageTurner) : PageTurner × List String :=
  let p1 := { p with current_page := p.current_page + 1 }
  (p1, ["Page " ++ toString p1.current_page ++ "."])

/-- `PageTurner.prev_page`. -/
def PageTurner.prev_page (p : PageTurner) : PageTurner × List String :=
  let p1 := if p.current_page > 1 then
      { p with current_page := p.current_page - 1 }
    else p
  (p1, ["Page " ++ toString p1.current_page ++ "."])

/-- `PageTurner.goto_page`. -/
def PageTurner.goto_page (p : PageTurner) (n : Int) : PageTurner × List String :=
  let p1 := { p with current_page := max 1 n }
  (p1, ["Page " ++ toString p1.current_page ++ "."])

/-- An armed `threading.Timer`: its delay and the callback it will run (always
`state.pager.next_page` in this source, recorded as the tag "next_page"). -/
structure ScheduledAction where
  seconds : ℚ
  action : String
deriving DecidableEq

/-- The dispatcher's `State`, plus `cancelled`: an observational event log of
every `Timer.cancel()` call, recording which armed timers were cancelled. -/
structure State where
  metronome : Metronome
  pager : Option PageTurner
  scheduled_timer : Option ScheduledAction
  cancelled : List ScheduledAction
deriving DecidableEq

/-- Python truthiness of an optional integer slot: present and nonzero. -/
def truthy : Option Int → Bool
  | none => false
  | some n => n != 0

/-- Python truthiness of an optional string slot after `or ""`: nonempty. -/
def truthyStr (s : Option String) : Bool := (s.getD "") ≠ ""

/-- `do_action(intent, state)` from `actions.py`. In the source the
`next_page`/`prev_page` success arms fall through without `return`; every
later branch tests a different intent name, so the fall-through performs
nothing and is elided here. `quit` calls `os._exit(0)` (process termination,
external); `tap_tempo` and any other unlisted name fall off the end of the
function with no effect and no output. -/
def do_action (intent : Intent) (st : State) : State × List String :=
  let name := intent.name
  if name = "unknown" then
    (st, ["Sorry, I didn’t understand. Say \x27help\x27 for options."])
  else if name = "start_met" then
    let r := st.metronome.start_click
    ({ st with metronome := r.1 }, r.2)
  else if name = "stop_met" then
    let r := st.metronome.stop_click
    ({ st with metronome := r.1 }, r.2)
  else if name = "set_tempo" then
    if truthy intent.bpm then
      let r := st.metronome.set_bpm (intent.bpm.getD 0)
      ({ st with metronome := r.1 }, r.2)
    else (st, ["Say a BPM number, like \x27set tempo to 120\x27."])
  else if name = "inc_tempo" then
    let r := st.metronome.increase (intent.delta.getD 5)
    ({ st with metronome := r.1 }, r.2)
  else if name = "dec_tempo" then
    let r := st.metronome.decrease (intent.delta.getD 5)
    ({ st with metronome := r.1 }, r.2)
  else if name = "what_tempo" then
    (st, ["Tempo is " ++ toString st.metronome.bpm ++ " BPM."])
  else if name = "set_subdivision" then
    let s := (intent.sub.getD "").toLower
    if s ≠ "" then
      let r := st.metronome.set_subdivision s
      ({ st with metronome := r.1 }, r.2)
    else (st, ["Say a subdivision: quarter, eighth, triplet, sixteenth."])
  else if name = "next_page" then
    match st.pager with
    | some p =>
      let r := p.next_page
      ({ st with pager := some r.1 }, r.2)
    | none => (st, ["No PDF loaded."])
  else if name = "prev_page" then
    match st.pager with
    | some p =>
      let r := p.prev_page
      ({ st with pager := some r.1 }, r.2)
    | none => (st, ["No PDF loaded."])
  else if name = "goto_page" then
    match st.pager with
    | some p =>
      if truthy intent.page then
        let r := p.goto_page (intent.page.getD 0)
        ({ st with pager := some r.1 }, r.2)
      else (st, ["Say \x27go to page N\x27."])
    | none => (st, ["Say \x27go to page N\x27."])
  else if name = "schedule_page_turn" then
    match st.pager with
    | some _ =>
      if truthy intent.bars then
        let bars := intent.bars.getD 0
        let seconds : ℚ := (bars : ℚ) * 4 * (60 / (st.metronome.bpm : ℚ))
        let cancelled := match st.scheduled_timer with
          | some t => st.cancelled ++ [t]
          | none => st.cancelled
        ({ st with
            scheduled_timer := some { seconds := seconds, action := "next_page" },
            cancelled := cancelled },
         ["Okay, turning the page in " ++ toString bars ++ " bars."])
      else (st, ["Say \x27turn page in N bars\x27."])
    | none => (st, ["Say \x27turn page in N bars\x27."])
  else if name = "help" then
    (st, ["Try: start/stop metronome, set tempo to 120, next page, go to page 5, turn page in 4 bars, quit."])
  else if name = "quit" then
    (st, ["Goodbye."])
  else
    (st, [])

/-! ## Tempo Engine operation sequences (for the never-stale invariant) -/

/-- The operations of the Tempo Engine that touch `bpm`/`subdivision`. -/
inductive TempoOp where
  | setBpm : Int → TempoOp
  | incBpm : Int → TempoOp
  | decBpm : Int → TempoOp
  | setSub : String → TempoOp
deriving DecidableEq

def TempoOp.apply (m : Metronome) : TempoOp → Metronome
  | TempoOp.setBpm n => (m.set_bpm n).1
  | TempoOp.incBpm d => (m.increase d).1
  | TempoOp.decBpm d => (m.decrease d).1
  | TempoOp.setSub s => (m.set_subdivision s).1

/-- Run a sequence of Tempo Engine operations from a starting state. -/
def runOps (m : Metronome) (ops : List TempoOp) : Metronome :=
  ops.foldl TempoOp.apply m

/-- The stored subdivision multiplier is one of the four mapped values. -/
def Metronome.subOK (m : Metronome) : Prop :=
  m.subdivision = 1 ∨ m.subdivision = 2 ∨ m.subdivision = 3 ∨ m.subdivision = 4

/-- The never-stale invariant: the stored tick interval is the one derived
from the currently stored bpm and subdivision multiplier. -/
def Metronome.tickOK (m : Metronome) : Prop :=
  m.interval = 60 / (m.bpm : ℚ) / (m.subdivision : ℚ)

theorem subOK_one_le {m : Metronome} (h : m.subOK) : 1 ≤ m.subdivision := by
  rcases h with h | h | h | h <;> omega

theorem tick_inv_init (b : Int) :
    (Metronome.init b).subOK ∧ (Metronome.init b).tickOK := by
  constructor
  · exact Or.inl rfl
  · show (60 : ℚ) / ((max 20 (min 300 b) : Int) : ℚ)
      = 60 / ((max 20 (min 300 b) : Int) : ℚ) / ((1 : Nat) : ℚ)
    norm_num

theorem tick_inv_set_bpm {m : Metronome} (h : m.subOK) (n : Int) :
    (m.set_bpm n).1.subOK ∧ (m.set_bpm n).1.tickOK := by
  have h1 : max 1 m.subdivision = m.subdivision := by
    have := subOK_one_le h
    omega
  refine ⟨h, ?_⟩
  show (60 : ℚ) / ((max 20 (min 300 n) : Int) : ℚ) / ((max 1 m.subdivision : Nat) : ℚ)
    = 60 / ((max 20 (min 300 n) : Int) : ℚ) / ((m.subdivision : Nat) : ℚ)
  rw [h1]

theorem tick_inv_set_sub {m : Metronome} (h : m.subOK) (ht : m.tickOK) (s : String) :
    (m.set_subdivision s).1.subOK ∧ (m.set_subdivision s).1.tickOK := by
  unfold Metronome.set_subdivision
  cases hk : subdivisionMapping s with
  | none => exact ⟨h, ht⟩
  | some k =>
    have hk14 : k = 1 ∨ k = 2 ∨ k = 3 ∨ k = 4 := by
      simp only [subdivisionMapping] at hk
      split_ifs at hk <;> simp_all
    exact ⟨hk14, rfl⟩

theorem tick_inv_step {m : Metronome} (h : m.subOK) (ht : m.tickOK) (op : TempoOp) :
    (TempoOp.apply m op).subOK ∧ (TempoOp.apply m op).tickOK := by
  cases op with
  | setBpm n => exact tick_inv_set_bpm h n
  | incBpm d => exact tick_inv_set_bpm h _
  | decBpm d => exact tick_inv_set_bpm h _
  | setSub s => exact tick_inv_set_sub h ht s

theorem tick_inv_runOps {m : Metronome} (h : m.subOK) (ht : m.tickOK)
    (ops : List TempoOp) : (runOps m ops).subOK ∧ (runOps m ops).tickOK := by
  induction ops generalizing m with
  | nil => exact ⟨h, ht⟩
  | cons op rest ih =>
    have step := tick_inv_step h ht op
    exact ih step.1 step.2

/-! ## Concrete session values used by witnesses and counterexamples -/

def demoPager : PageTurner :=
  { pdf_path := "score.pdf", current_page := 1, total_pages := none }

def demoMetronome : Metronome := Metronome.init 100

/-- A session without a pager (started as `python app.py` with no PDF). -/
def demoNoPdfState : State :=
  { metronome := demoMetronome, pager := none, scheduled_timer := none,
    cancelled := [] }

/-- A session with a pager, at the default 100 BPM. -/
def demoPdfState : State :=
  { metronome := demoMetronome, pager := some demoPager,
    scheduled_timer := none, cancelled := [] }

/-! ## The claims -/

/-- C1: for every integer n, `set_bpm(n)` (directly, or via
`increase(delta)`/`decrease(delta)`, which delegate to
`set_bpm(current ± delta)`) stores exactly `clamp(n, 20, 300)`; out-of-range
requests are clamped, never rejected. -/
theorem C1_set_bpm_clamped (m : Metronome) (n d : Int) :
    (m.set_bpm n).1.bpm = clamp n 20 300
  ∧ (m.increase d).1.bpm = clamp (m.bpm + d) 20 300
  ∧ (m.decrease d).1.bpm = clamp (m.bpm - d) 20 300 :=
  ⟨rfl, rfl, rfl⟩

/-- C3: after construction and after every sequence of `set_bpm`,
`increase`, `decrease` and `set_subdivision` operations, the stored tick
interval equals `60 / bpm / subdivision_multiplier`; the multiplier for
quarter, eighth, triplet, sixteenth is 1, 2, 3, 4 respectively. -/
theorem C3_tick_interval_never_stale (b : Int) (ops : List TempoOp)
    (m : Metronome) :
    (runOps (Metronome.init b) ops).interval
      = 60 / ((runOps (Metronome.init b) ops).bpm : ℚ)
        / ((runOps (Metronome.init b) ops).subdivision : ℚ)
  ∧ (m.set_subdivision "quarter").1.subdivision = 1
  ∧ (m.set_subdivision "eighth").1.subdivision = 2
  ∧ (m.set_subdivision "triplet").1.subdivision = 3
  ∧ (m.set_subdivision "sixteenth").1.subdivision = 4 := by
  have hi := tick_inv_init b
  have hr := tick_inv_runOps hi.1 hi.2 ops
  exact ⟨hr.2, rfl, rfl, rfl, rfl⟩

/-- C4: every pager operation preserves `current_page ≥ 1`, and `prev_page`
at page 1 leaves the page equal to 1. -/
theorem C4_current_page_ge_one (p : PageTurner) (n : Int)
    (h : 1 ≤ p.current_page) :
    1 ≤ (p.next_page).1.current_page
  ∧ 1 ≤ (p.prev_page).1.current_page
  ∧ 1 ≤ (p.goto_page n).1.current_page
  ∧ (p.current_page = 1 → (p.prev_page).1.current_page = 1) := by
  have hprev : (p.prev_page).1.current_page
      = if p.current_page > 1 then p.current_page - 1 else p.current_page := by
    simp only [PageTurner.prev_page]
    split <;> rfl
  refine ⟨?_, ?_, ?_, ?_⟩
  · show 1 ≤ p.current_page + 1
    omega
  · rw [hprev]
    split <;> omega
  · show 1 ≤ max 1 n
    exact le_max_left 1 n
  · intro h1
    rw [hprev]
    split <;> omega

/-- Witness for C4: the concrete pager at page 1 with the request
`goto_page(-3)`. -/
theorem C4_witness :
    1 ≤ demoPager.current_page
  ∧ (1 ≤ (demoPager.next_page).1.current_page
  ∧ 1 ≤ (demoPager.prev_page).1.current_page
  ∧ 1 ≤ (demoPager.goto_page (-3)).1.current_page
  ∧ (demoPager.current_page = 1 → (demoPager.prev_page).1.current_page = 1)) :=
  ⟨by decide, C4_current_page_ge_one demoPager (-3) (by decide)⟩

/-- C8: `start_click` and `stop_click` are idempotent on the running/alive
state: starting twice equals starting once (one thread, one tick stream) and
stopping twice equals stopping once. -/
theorem C8_start_stop_idempotent (m : Metronome) :
    ((m.start_click).1.start_click).1 = (m.start_click).1
  ∧ (m.start_click).1.running = true
  ∧ (m.start_click).1.alive = true
  ∧ ((m.stop_click).1.stop_click).1 = (m.stop_click).1
  ∧ (m.stop_click).1.running = false := by
  cases m with
  | mk bpm interval running alive subdivision =>
    cases alive <;> cases running <;>
      simp [Metronome.start_click, Metronome.stop_click]

/-- A pending timer armed in an earlier dispatch, used to exhibit
cancel-and-replace. -/
def oldTimer : ScheduledAction := { seconds := 2, action := "next_page" }

/-- A session with a pager at bpm 120 and a pending scheduled page turn. -/
def schedState : State :=
  { metronome := Metronome.init 120, pager := some demoPager,
    scheduled_timer := some oldTimer, cancelled := [] }

/-- C2 (amended: the bars slot must also be nonzero, since the dispatcher
tests it by truthiness): dispatching SchedulePageTurn with a pager present
and a nonzero bars slot cancels any existing timer and arms exactly one new
scheduled action, due in `bars * 4 * (60 / bpm)` seconds, firing next_page. -/
theorem C2_schedule_replaces (st : State) (p : PageTurner) (b : Int)
    (hp : st.pager = some p) (hb : b ≠ 0) :
    do_action { Intent.just "schedule_page_turn" with bars := some b } st
      = ({ st with
            scheduled_timer := some
              { seconds := (b : ℚ) * 4 * (60 / (st.metronome.bpm : ℚ)),
                action := "next_page" },
            cancelled := st.cancelled ++ st.scheduled_timer.toList },
         ["Okay, turning the page in " ++ toString b ++ " bars."]) := by
  cases hst : st.scheduled_timer with
  | none => simp [do_action, Intent.just, truthy, hp, hb, hst]
  | some t => simp [do_action, Intent.just, truthy, hp, hb, hst]

/-- Witness for C2: 4 bars at bpm 120 with a pending timer arm a fire at
exactly 8 seconds and cancel the pending timer. -/
theorem C2_witness :
    schedState.pager = some demoPager ∧ (4 : Int) ≠ 0
  ∧ do_action { Intent.just "schedule_page_turn" with bars := some 4 } schedState
      = ({ schedState with
            scheduled_timer := some
              { seconds := ((4 : Int) : ℚ) * 4 * (60 / (schedState.metronome.bpm : ℚ)),
                action := "next_page" },
            cancelled := schedState.cancelled ++ schedState.scheduled_timer.toList },
         ["Okay, turning the page in " ++ toString (4 : Int) ++ " bars."])
  ∧ ((4 : Int) : ℚ) * 4 * (60 / (schedState.metronome.bpm : ℚ)) = 8 :=
  ⟨rfl, by decide,
   C2_schedule_replaces schedState demoPager 4 rfl (by decide), by
    have hb : schedState.metronome.bpm = 120 := rfl
    rw [hb]
    norm_num⟩

/-- Counterexample to C2 as stated: with a pager present and the bars slot
present with value 0, the dispatcher arms nothing (it emits the bar-count
prompt), while the claim requires a scheduled action due in 0 seconds. -/
theorem C2_counterexample :
    do_action { Intent.just "schedule_page_turn" with bars := some 0 } demoPdfState
      = (demoPdfState, ["Say \x27turn page in N bars\x27."])
  ∧ (do_action { Intent.just "schedule_page_turn" with bars := some 0 }
      demoPdfState).1.scheduled_timer = none := by
  constructor <;> simp [do_action, Intent.just, truthy, demoPdfState]

/-- C5 (amended: only NextPage and PrevPage emit "No PDF loaded."; GotoPage
and SchedulePageTurn emit their slot-clarification prompts instead): with no
pager configured, every page-related intent leaves the session unchanged, and
the response is "No PDF loaded." for NextPage/PrevPage and the respective
prompt for GotoPage/SchedulePageTurn. -/
theorem C5_no_pager_no_mutation (st : State) (pg bs : Option Int)
    (h : st.pager = none) :
    do_action (Intent.just "next_page") st = (st, ["No PDF loaded."])
  ∧ do_action (Intent.just "prev_page") st = (st, ["No PDF loaded."])
  ∧ do_action { Intent.just "goto_page" with page := pg } st
      = (st, ["Say \x27go to page N\x27."])
  ∧ do_action { Intent.just "schedule_page_turn" with bars := bs } st
      = (st, ["Say \x27turn page in N bars\x27."]) := by
  refine ⟨?_, ?_, ?_, ?_⟩ <;> simp [do_action, Intent.just, h]

/-- Witness for C5: the pager-less demo session with slots 5 and 4 present. -/
theorem C5_witness :
    demoNoPdfState.pager = none
  ∧ (do_action (Intent.just "next_page") demoNoPdfState
      = (demoNoPdfState, ["No PDF loaded."])
  ∧ do_action (Intent.just "prev_page") demoNoPdfState
      = (demoNoPdfState, ["No PDF loaded."])
  ∧ do_action { Intent.just "goto_page" with page := some 5 } demoNoPdfState
      = (demoNoPdfState, ["Say \x27go to page N\x27."])
  ∧ do_action { Intent.just "schedule_page_turn" with bars := some 4 } demoNoPdfState
      = (demoNoPdfState, ["Say \x27turn page in N bars\x27."])) :=
  ⟨rfl, C5_no_pager_no_mutation demoNoPdfState (some 5) (some 4) rfl⟩

/-- Counterexample to C5 as stated: with no pager, GotoPage emits the
go-to-page prompt, not "No PDF loaded.". -/
theorem C5_counterexample :
    (do_action { Intent.just "goto_page" with page := some 5 } demoNoPdfState).2
      = ["Say \x27go to page N\x27."]
  ∧ (do_action { Intent.just "goto_page" with page := some 5 } demoNoPdfState).2
      ≠ ["No PDF loaded."] := by
  constructor <;> decide

/-- C6 (amended: the bpm slot must also be nonzero, since the dispatcher
tests it by truthiness): dispatching SetTempo with a nonzero bpm slot stores
`clamp(bpm, 20, 300)` and confirms it; with the slot absent the BPM prompt is
emitted and nothing changes. -/
theorem C6_set_tempo_dispatch (st : State) (n : Int) (h : n ≠ 0) :
    (do_action { Intent.just "set_tempo" with bpm := some n } st).1.metronome.bpm
      = clamp n 20 300
  ∧ (do_action { Intent.just "set_tempo" with bpm := some n } st).2
      = ["Tempo set to " ++ toString (clamp n 20 300) ++ " BPM."]
  ∧ do_action (Intent.just "set_tempo") st
      = (st, ["Say a BPM number, like \x27set tempo to 120\x27."]) := by
  refine ⟨?_, ?_, ?_⟩ <;>
    simp [do_action, Intent.just, truthy, h, Metronome.set_bpm, clamp]

/-- Witness for C6: requesting 120 BPM on the demo session stores 120. -/
theorem C6_witness :
    (120 : Int) ≠ 0
  ∧ ((do_action { Intent.just "set_tempo" with bpm := some 120 } demoPdfState).1.metronome.bpm
      = clamp 120 20 300
  ∧ (do_action { Intent.just "set_tempo" with bpm := some 120 } demoPdfState).2
      = ["Tempo set to " ++ toString (clamp 120 20 300) ++ " BPM."]
  ∧ do_action (Intent.just "set_tempo") demoPdfState
      = (demoPdfState, ["Say a BPM number, like \x27set tempo to 120\x27."])) :=
  ⟨by decide, C6_set_tempo_dispatch demoPdfState 120 (by decide)⟩

/-- Counterexample to C6 as stated: the bpm slot present with value 0 does
not apply `set_bpm` (the stored bpm stays 100 instead of becoming
`clamp(0,20,300) = 20`), and the BPM prompt is emitted although the slot is
present. -/
theorem C6_counterexample :
    (do_action { Intent.just "set_tempo" with bpm := some 0 } demoPdfState).1.metronome.bpm
      ≠ clamp 0 20 300
  ∧ (do_action { Intent.just "set_tempo" with bpm := some 0 } demoPdfState).2
      = ["Say a BPM number, like \x27set tempo to 120\x27."] := by
  constructor <;> decide

/-- C7 (amended: the rule `\bwhat'?s\s+(tempo|bpm)\b` matches the contracted
forms only, so "what's tempo" and "what's bpm" yield QueryTempo while
"what is tempo" and "what is bpm" match no rule and yield Unknown). -/
theorem C7_whats_tempo_rules :
    nlu_rules "what\x27s tempo" = Intent.just "what_tempo"
  ∧ nlu_rules "what\x27s bpm" = Intent.just "what_tempo"
  ∧ nlu_rules "what is tempo" = Intent.just "unknown"
  ∧ nlu_rules "what is bpm" = Intent.just "unknown" :=
  ⟨by decide, by decide, by decide, by decide⟩

/-- Counterexample to C7 as stated: the classifier does not return QueryTempo
for "what is tempo" or "what is bpm" (both fall through to Unknown, since
`what'?s` requires the contracted form). -/
theorem C7_counterexample :
    (nlu_rules "what is tempo").name ≠ "what_tempo"
  ∧ (nlu_rules "what is bpm").name ≠ "what_tempo" := by
  constructor <;> decide

/-- C9 (amended: an utterance containing "tap tempo" yields TapTempo only
when no earlier rule matches, e.g. the bare "tap tempo"): the classifier can
return a TapTempo intent, and the dispatcher has no branch for it — the
intent falls through every case of `do_action`, mutating no state and
emitting no response at all. -/
theorem C9_tap_tempo_unhandled (st : State) :
    nlu_rules "tap tempo" = Intent.just "tap_tempo"
  ∧ do_action (Intent.just "tap_tempo") st = (st, []) :=
  ⟨by decide, rfl⟩

/-- Counterexample to C9's parenthetical universal: "stop metronome tap
tempo" contains the phrase "tap tempo", yet an earlier rule wins and the
classifier returns StopMetronome, not TapTempo. -/
theorem C9_counterexample :
    nlu_rules "stop metronome tap tempo" = Intent.just "stop_met"
  ∧ Intent.just "stop_met" ≠ Intent.just "tap_tempo" := by
  constructor <;> decide

/-- C10: the dispatcher tests slot presence by truthiness, so a slot holding
the integer 0 (e.g. the bpm extracted from "tempo 00") behaves exactly as an
absent slot for SetTempo, GotoPage and SchedulePageTurn: the clarification
prompt is emitted and no state is mutated. -/
theorem C10_zero_slot_behaves_as_absent (st : State) :
    do_action { Intent.just "set_tempo" with bpm := some 0 } st
      = do_action (Intent.just "set_tempo") st
  ∧ do_action { Intent.just "set_tempo" with bpm := some 0 } st
      = (st, ["Say a BPM number, like \x27set tempo to 120\x27."])
  ∧ do_action { Intent.just "goto_page" with page := some 0 } st
      = do_action (Intent.just "goto_page") st
  ∧ do_action { Intent.just "goto_page" with page := some 0 } st
      = (st, ["Say \x27go to page N\x27."])
  ∧ do_action { Intent.just "schedule_page_turn" with bars := some 0 } st
      = do_action (Intent.just "schedule_page_turn") st
  ∧ do_action { Intent.just "schedule_page_turn" with bars := some 0 } st
      = (st, ["Say \x27turn page in N bars\x27."])
  ∧ nlu_rules "tempo 00" = { Intent.just "set_tempo" with bpm := some 0 } := by
  refine ⟨?_, ?_, ?_, ?_, ?_, ?_, by decide⟩ <;>
    cases hp : st.pager <;> simp [do_action, Intent.just, truthy, hp]
